import Mathlib

/-!
Verification of the SQL-safety filter and HTTP handlers of the DB_Agent
repository (src/week_10/SQLAgent/app.py).

Strings are modelled as `List Char`.  The regular expressions of `_run` are
modelled by explicit scanners over character lists:
`\w` is `[A-Za-z0-9_]`, `\s` is `[ \t\n\r\v\f]`, `\d` is `[0-9]`, and the
`re.I` flag is ASCII case folding.  The database engine and the hosted LLM
agent are oracles passed as parameters, so the theorems quantify over every
possible behaviour of those external components.
-/

/-- Python `str.isspace` characters relevant to `str.strip` and `\s`
(space, tab, newline, carriage return, vertical tab, form feed). -/
def isPySpace (c : Char) : Bool :=
  c.toNat == 32 || c.toNat == 9 || c.toNat == 10 || c.toNat == 13 ||
    c.toNat == 11 || c.toNat == 12

/-- Regex word character `\w`, i.e. `[A-Za-z0-9_]`. -/
def isWordChar (c : Char) : Bool :=
  (decide (65 ≤ c.toNat) && decide (c.toNat ≤ 90)) ||
  (decide (97 ≤ c.toNat) && decide (c.toNat ≤ 122)) ||
  (decide (48 ≤ c.toNat) && decide (c.toNat ≤ 57)) ||
  c.toNat == 95

/-- Case-insensitive character comparison, as performed by `re.I`:
equal code points, or the same letter in the two ASCII cases. -/
def ciEqChar (a b : Char) : Bool :=
  a.toNat == b.toNat ||
  (decide (65 ≤ a.toNat) && decide (a.toNat ≤ 90) && b.toNat == a.toNat + 32) ||
  (decide (65 ≤ b.toNat) && decide (b.toNat ≤ 90) && a.toNat == b.toNat + 32)

/-- Python `str.lower` on one character (ASCII fragment). -/
def toLowerChar (c : Char) : Char :=
  if 65 ≤ c.toNat ∧ c.toNat ≤ 90 then Char.ofNat (c.toNat + 32) else c

/-- Python `str.lower`. -/
def toLowerL (s : List Char) : List Char := s.map toLowerChar

/-- Remove trailing `isPySpace` characters. -/
def dropTrailing (s : List Char) : List Char :=
  (s.reverse.dropWhile isPySpace).reverse

/-- Python `str.strip`: remove leading and trailing whitespace. -/
def pyStrip (s : List Char) : List Char :=
  dropTrailing (s.dropWhile isPySpace)

/-- Does `kw` match a prefix of `s` case-insensitively? -/
def matchesAtCI : List Char → List Char → Bool
  | [], _ => true
  | _ :: _, [] => false
  | k :: ks, c :: cs => ciEqChar k c && matchesAtCI ks cs

/-- The word boundary `\b` immediately left of a word character:
the previous character (if any) must not be a word character. -/
def boundaryBefore : Option Char → Bool
  | none => true
  | some c => !isWordChar c

/-- The word boundary `\b` immediately right of a word character:
the next character (if any) must not be a word character. -/
def boundaryAfter : List Char → Bool
  | [] => true
  | a :: _ => !isWordChar a

/-- Model of `re.search`: try the matcher `m` at every position of the list, feeding
it the character preceding the position (for `\b`). -/
def scanFrom (m : Option Char → List Char → Bool) : Option Char → List Char → Bool
  | _, [] => false
  | prev, c :: cs => m prev (c :: cs) || scanFrom m (some c) cs

/-- The keywords of the regex
`\b(INSERT|UPDATE|DELETE|DROP|TRUNCATE|ALTER|CREATE|REPLACE)\b` (app.py:40). -/
def dangerousKeywords : List (List Char) :=
  ["INSERT".data, "UPDATE".data, "DELETE".data, "DROP".data,
   "TRUNCATE".data, "ALTER".data, "CREATE".data, "REPLACE".data]

/-- Match `\bkw\b` (case-insensitively) at the current position. -/
def wordMatchAt (kw : List Char) (prev : Option Char) (u : List Char) : Bool :=
  boundaryBefore prev && matchesAtCI kw u && boundaryAfter (u.drop kw.length)

/-- Model of `re.search` for `\bkw\b` with `re.I`, for a single keyword. -/
def searchWordCI (kw s : List Char) : Bool :=
  scanFrom (wordMatchAt kw) none s

/-- Model of `re.search(r"\b(INSERT|UPDATE|DELETE|DROP|TRUNCATE|ALTER|CREATE|REPLACE)\b", s, re.I)`
at app.py:40. -/
def hasDangerous (s : List Char) : Bool :=
  dangerousKeywords.any (fun kw => searchWordCI kw s)

/-- The keyword of `^\s*select\b`. -/
def selectKw : List Char := "select".data

/-- Model of `re.match(r"(?is)^\s*select\b", s)` at app.py:48: after optional leading
whitespace, the keyword `select` case-insensitively, at a word boundary. -/
def matchesSelect (s : List Char) : Bool :=
  matchesAtCI selectKw (s.dropWhile isPySpace) &&
    boundaryAfter ((s.dropWhile isPySpace).drop selectKw.length)

/-- Match `\s+\d+\b` (the part of the LIMIT regex after `limit`). -/
def limitTailMatch : List Char → Bool
  | [] => false
  | c :: cs =>
    isPySpace c &&
      (match cs.dropWhile isPySpace with
       | [] => false
       | d :: ds =>
         d.isDigit && boundaryAfter ((d :: ds).dropWhile Char.isDigit))

/-- Match `\blimit\s+\d+\b` (case-insensitively) at the current position. -/
def limitMatchAt (prev : Option Char) (u : List Char) : Bool :=
  boundaryBefore prev && matchesAtCI ("limit".data) u &&
    limitTailMatch (u.drop 5)

/-- Model of `re.search(r"\blimit\s+\d+\b", s, re.I)` at app.py:52. -/
def hasLimit (s : List Char) : Bool :=
  scanFrom limitMatchAt none s

/-- Python `";" in s`. -/
def containsSemi (s : List Char) : Bool :=
  s.any (fun c => c == ';')

/-- Python `s.endswith(";")`. -/
def endsWithSemi (s : List Char) : Bool :=
  s.getLast? == some ';'

/-- The literal `" LIMIT 50"` appended at app.py:53. -/
def lim50 : List Char := " LIMIT 50".data

/-- Error string of app.py:41. -/
def writeErrorMsg : List Char :=
  "ERROR: Write operations are not allowed for security reasons.".data

/-- Error string of app.py:45. -/
def multiErrorMsg : List Char :=
  "ERROR: Multiple statements are not allowed.".data

/-- Error string of app.py:49. -/
def selectErrorMsg : List Char :=
  "ERROR: Only SELECT statements are allowed.".data

/-- String of app.py:62. -/
def noResultsMsg : List Char :=
  "Query executed successfully but returned no results.".data

/-- The `"ERROR: "` tag of app.py:74. -/
def errTag : List Char := "ERROR: ".data

/-- Outcome of `conn.exec_driver_sql` on one statement: either the driver
raises an exception carrying a message, or it yields column keys and rows.
Columns and rows are abstract (`κ`, `α`): `_run` never inspects them. -/
inductive ExecResult (κ α : Type) where
  | raise (msg : List Char)
  | result (columns : List κ) (rows : List α)
deriving DecidableEq

/-- Return value of `_run`: either one of its literal strings, or the
`f"SUCCESS: {result_data}"` payload of app.py:65-71, kept structured with
its columns, rows and row count. -/
inductive Output (κ α : Type) where
  | text (s : List Char)
  | successData (columns : List κ) (rows : List α) (rowCount : Nat)
deriving DecidableEq

/-- The sanitize-and-augment step of `_run` (app.py:37 and 52-53): strip the
input, and append `" LIMIT 50"` when `\blimit\s+\d+\b` does not occur. -/
def transform (sql : List Char) : List Char :=
  if !hasLimit (pyStrip sql) then pyStrip sql ++ lim50 else pyStrip sql

/-- The three validation checks of `_run` (app.py:40-49) on the stripped
input, in source order: no dangerous keyword, no non-final semicolon,
starts with `select`. -/
def passesChecks (sql : List Char) : Bool :=
  !hasDangerous (pyStrip sql) &&
  !(containsSemi (pyStrip sql) && !endsWithSemi (pyStrip (pyStrip sql))) &&
  matchesSelect (pyStrip sql)

/-- Model of `SafeSQLTool._run` (app.py:35-74), parameterised by the database engine
`db`.  The second component records the SQL text submitted to the engine
(`none` when the input is rejected before execution). -/
def SafeSQLTool.run {κ α : Type} (db : List Char → ExecResult κ α)
    (sql : List Char) : Output κ α × Option (List Char) :=
  -- s = sql.strip() (app.py:37); every use below re-inlines `pyStrip sql`.
  if hasDangerous (pyStrip sql) then
    (Output.text writeErrorMsg, none)
  else if containsSemi (pyStrip sql) && !endsWithSemi (pyStrip (pyStrip sql)) then
    (Output.text multiErrorMsg, none)
  else if !matchesSelect (pyStrip sql) then
    (Output.text selectErrorMsg, none)
  else
    match db (transform sql) with
    | ExecResult.raise msg => (Output.text (errTag ++ msg), some (transform sql))
    | ExecResult.result cols rows =>
      if rows.isEmpty then (Output.text noResultsMsg, some (transform sql))
      else (Output.successData cols rows rows.length, some (transform sql))

/-- Python substring containment `pat in s` (used with multi-character
patterns in `query_agent` and `handle_quota_exceeded`). -/
def startsWithL : List Char → List Char → Bool
  | [], _ => true
  | _ :: _, [] => false
  | p :: ps, c :: cs => p == c && startsWithL ps cs

/-- Python `pat in s`: `pat` occurs contiguously in `s`. -/
def containsSub (pat : List Char) : List Char → Bool
  | [] => startsWithL pat []
  | c :: cs => startsWithL pat (c :: cs) || containsSub pat cs

/-- Outcome of the hosted-agent interaction inside `query_agent`:
`get_sql_agent()` returned `None`, `agent.invoke` raised with a message, or
it returned an output string. -/
inductive AgentOutcome where
  | initFailed
  | raised (msg : List Char)
  | output (res : List Char)
deriving DecidableEq

/-- Which branch of `handle_quota_exceeded` (app.py:169-194) answers. -/
inductive FallbackRoute where
  | customers
  | products
  | orders
  | revenue
  | quotaMessage
deriving DecidableEq

/-- HTTP response of `query_agent`, by code path: a 400 error, a 500 error,
the agent-result JSON path (app.py:134-156, not inspected by any claim), or
the hardcoded fallback of `handle_quota_exceeded`. -/
inductive Response where
  | badRequest (msg : List Char)
  | serverError (msg : List Char)
  | agentResult (res : List Char)
  | fallback (r : FallbackRoute)
deriving DecidableEq

/-- Model of `handle_quota_exceeded` (app.py:169-194): keyword routing over the
lowercased user query. -/
def handle_quota_exceeded (userQuery : List Char) : FallbackRoute :=
  if containsSub ("customers".data) (toLowerL userQuery) then FallbackRoute.customers
  else if containsSub ("products".data) (toLowerL userQuery) then FallbackRoute.products
  else if containsSub ("orders".data) (toLowerL userQuery) then FallbackRoute.orders
  else if containsSub ("revenue".data) (toLowerL userQuery) ||
            containsSub ("total".data) (toLowerL userQuery) then FallbackRoute.revenue
  else FallbackRoute.quotaMessage

/-- Model of `query_agent` (app.py:115-167).  `body` is the `"query"` field of the
JSON body (`none` when absent, so `data.get('query', '')` yields `""`);
`agent` is the oracle for the hosted-agent interaction.  The boolean records
whether `agent.invoke` was reached. -/
def query_agent (agent : AgentOutcome) (body : Option (List Char)) :
    Response × Bool :=
  if (pyStrip (body.getD [])).isEmpty then
    (Response.badRequest ("No query provided".data), false)
  else
    match agent with
    | AgentOutcome.initFailed =>
      (Response.serverError ("Failed to initialize SQL agent. Check your API key.".data), false)
    | AgentOutcome.raised msg =>
      if containsSub ("429".data) msg || containsSub ("quota".data) (toLowerL msg) then
        (Response.fallback (handle_quota_exceeded (pyStrip (body.getD []))), true)
      else
        (Response.serverError ("Server error: ".data ++ msg), true)
    | AgentOutcome.output res => (Response.agentResult res, true)

/-! ### Lemmas about `pyStrip` -/

theorem dropWhile_head_false (p : Char → Bool) :
    ∀ (l : List Char) (c : Char) (cs : List Char),
      l.dropWhile p = c :: cs → p c = false := by
  intro l
  induction l with
  | nil => intro c cs h; simp at h
  | cons a as ih =>
    intro c cs h
    by_cases hp : p a
    · rw [List.dropWhile_cons_of_pos hp] at h
      exact ih c cs h
    · rw [List.dropWhile_cons_of_neg hp] at h
      injection h with h1 _
      rw [← h1]
      simpa using hp

theorem dropWhile_eq_self (p : Char → Bool) (l : List Char)
    (h : ∀ c cs, l = c :: cs → p c = false) : l.dropWhile p = l := by
  cases l with
  | nil => rfl
  | cons a as => exact List.dropWhile_cons_of_neg (by simp [h a as rfl])

theorem dropWhile_decomp (p : Char → Bool) (l : List Char) :
    ∃ q, l = q ++ l.dropWhile p := by
  induction l with
  | nil => exact ⟨[], rfl⟩
  | cons a as ih =>
    by_cases hp : p a
    · obtain ⟨q, hq⟩ := ih
      refine ⟨a :: q, ?_⟩
      rw [List.dropWhile_cons_of_pos hp, List.cons_append]
      exact congrArg (a :: ·) hq
    · exact ⟨[], by rw [List.dropWhile_cons_of_neg hp]; rfl⟩

theorem dropTrailing_eq_self (l : List Char)
    (h : ∀ c cs, l.reverse = c :: cs → isPySpace c = false) :
    dropTrailing l = l := by
  unfold dropTrailing
  rw [dropWhile_eq_self isPySpace l.reverse h, List.reverse_reverse]

theorem pyStrip_reverse (s : List Char) :
    (pyStrip s).reverse = (s.dropWhile isPySpace).reverse.dropWhile isPySpace := by
  unfold pyStrip dropTrailing
  rw [List.reverse_reverse]

theorem pyStrip_head (s : List Char) (c : Char) (cs : List Char)
    (h : pyStrip s = c :: cs) : isPySpace c = false := by
  obtain ⟨q, hq⟩ := dropWhile_decomp isPySpace (s.dropWhile isPySpace).reverse
  have hu : s.dropWhile isPySpace = pyStrip s ++ q.reverse := by
    conv_lhs => rw [← List.reverse_reverse (s.dropWhile isPySpace)]
    rw [hq, List.reverse_append]
    rfl
  rw [h, List.cons_append] at hu
  exact dropWhile_head_false isPySpace s c _ hu

theorem pyStrip_last (s : List Char) (c : Char) (cs : List Char)
    (h : (pyStrip s).reverse = c :: cs) : isPySpace c = false := by
  rw [pyStrip_reverse] at h
  exact dropWhile_head_false isPySpace _ c cs h

theorem pyStrip_idem (s : List Char) : pyStrip (pyStrip s) = pyStrip s := by
  have h1 : (pyStrip s).dropWhile isPySpace = pyStrip s :=
    dropWhile_eq_self isPySpace (pyStrip s) (fun c cs h => pyStrip_head s c cs h)
  show dropTrailing ((pyStrip s).dropWhile isPySpace) = pyStrip s
  rw [h1]
  exact dropTrailing_eq_self (pyStrip s) (fun c cs h => pyStrip_last s c cs h)

theorem pyStrip_append_lim50 (s : List Char) (c : Char) (cs : List Char)
    (h : pyStrip s = c :: cs) :
    pyStrip (pyStrip s ++ lim50) = pyStrip s ++ lim50 := by
  have hc := pyStrip_head s c cs h
  have h1 : (pyStrip s ++ lim50).dropWhile isPySpace = pyStrip s ++ lim50 := by
    apply dropWhile_eq_self
    intro d ds hd
    rw [h, List.cons_append] at hd
    injection hd with h1 _
    rw [← h1]
    exact hc
  show dropTrailing ((pyStrip s ++ lim50).dropWhile isPySpace) = _
  rw [h1]
  apply dropTrailing_eq_self
  intro d ds hd
  rw [List.reverse_append] at hd
  have h0 : lim50.reverse = '0' :: ("5 TIMIL ".data) := by decide
  rw [h0, List.cons_append] at hd
  injection hd with h1 _
  rw [← h1]
  decide

/-! ### Lemmas about case-insensitive word matching -/

theorem ciEqChar_false {a b : Char} (ha : isWordChar a = true)
    (hb : isWordChar b = false) : ciEqChar a b = false := by
  cases hcq : ciEqChar a b with
  | false => rfl
  | true =>
    exfalso
    unfold ciEqChar at hcq
    unfold isWordChar at ha hb
    simp only [Bool.or_eq_true, Bool.and_eq_true, decide_eq_true_eq, beq_iff_eq] at hcq ha
    simp only [Bool.or_eq_false_iff, Bool.and_eq_false_iff, decide_eq_false_iff_not,
      beq_eq_false_iff_ne, ne_eq] at hb
    omega

theorem matchesAtCI_extend : ∀ (kw u w : List Char),
    matchesAtCI kw u = true → matchesAtCI kw (u ++ w) = true := by
  intro kw
  induction kw with
  | nil => intro u w _; rfl
  | cons k ks ih =>
    intro u w h
    cases u with
    | nil => exact absurd h (by simp [matchesAtCI])
    | cons c cs =>
      rw [List.cons_append]
      simp only [matchesAtCI, Bool.and_eq_true] at h ⊢
      exact ⟨h.1, ih cs w h.2⟩

theorem matchesAtCI_le_length : ∀ (kw u : List Char),
    matchesAtCI kw u = true → kw.length ≤ u.length := by
  intro kw
  induction kw with
  | nil => intro u _; exact Nat.zero_le _
  | cons k ks ih =>
    intro u h
    cases u with
    | nil => exact absurd h (by simp [matchesAtCI])
    | cons c cs =>
      simp only [matchesAtCI, Bool.and_eq_true] at h
      simpa [List.length_cons] using Nat.succ_le_succ (ih cs h.2)

theorem matchesAtCI_split (wc : Char) (wrest : List Char)
    (hwc : isWordChar wc = false) :
    ∀ (kw u : List Char), kw.all isWordChar = true →
      matchesAtCI kw (u ++ wc :: wrest) = true →
      matchesAtCI kw u = true ∧ kw.length ≤ u.length := by
  intro kw
  induction kw with
  | nil => intro u _ _; exact ⟨rfl, Nat.zero_le _⟩
  | cons k ks ih =>
    intro u hall h
    rw [List.all_cons, Bool.and_eq_true] at hall
    cases u with
    | nil =>
      exfalso
      rw [List.nil_append] at h
      simp only [matchesAtCI, Bool.and_eq_true] at h
      obtain ⟨h1, _⟩ := h
      rw [ciEqChar_false hall.1 hwc] at h1
      exact Bool.false_ne_true h1
    | cons c cs =>
      rw [List.cons_append] at h
      simp only [matchesAtCI, Bool.and_eq_true] at h ⊢
      obtain ⟨h1, h2⟩ := h
      obtain ⟨h3, h4⟩ := ih cs hall.2 h2
      exact ⟨⟨h1, h3⟩, by simpa using Nat.succ_le_succ h4⟩

/-! ### Lemmas about `scanFrom` -/

theorem scanFrom_cons (m : Option Char → List Char → Bool) (prev : Option Char)
    (c : Char) (cs : List Char) :
    scanFrom m prev (c :: cs) = (m prev (c :: cs) || scanFrom m (some c) cs) := rfl

theorem scanFrom_append_all (m : Option Char → List Char → Bool) (w : List Char)
    (hw : ∀ p, scanFrom m p w = true) :
    ∀ (s : List Char) (prev : Option Char), scanFrom m prev (s ++ w) = true := by
  intro s
  induction s with
  | nil => intro prev; exact hw prev
  | cons c cs ih =>
    intro prev
    rw [List.cons_append, scanFrom_cons, ih (some c), Bool.or_true]

theorem scanFrom_append_split (m : Option Char → List Char → Bool) (w : List Char)
    (hm : ∀ prev u, m prev (u ++ w) = true → m prev u = true) :
    ∀ (s : List Char) (prev : Option Char), scanFrom m prev (s ++ w) = true →
      scanFrom m prev s = true ∨ ∃ p, scanFrom m p w = true := by
  intro s
  induction s with
  | nil => intro prev h; exact Or.inr ⟨prev, h⟩
  | cons c cs ih =>
    intro prev h
    rw [List.cons_append, scanFrom_cons, Bool.or_eq_true] at h
    rcases h with h | h
    · left
      rw [scanFrom_cons, Bool.or_eq_true]
      exact Or.inl (hm prev (c :: cs) h)
    · rcases ih (some c) h with h2 | h2
      · left
        rw [scanFrom_cons, Bool.or_eq_true]
        exact Or.inr h2
      · exact Or.inr h2

theorem wordMatchAt_unappend (kw : List Char) (hkw : kw.all isWordChar = true)
    (wc : Char) (wrest : List Char) (hwc : isWordChar wc = false) :
    ∀ (prev : Option Char) (u : List Char),
      wordMatchAt kw prev (u ++ wc :: wrest) = true → wordMatchAt kw prev u = true := by
  intro prev u h
  unfold wordMatchAt at h ⊢
  simp only [Bool.and_eq_true] at h ⊢
  obtain ⟨⟨hb, hmatch⟩, hafter⟩ := h
  obtain ⟨hm2, hlen⟩ := matchesAtCI_split wc wrest hwc kw u hkw hmatch
  refine ⟨⟨hb, hm2⟩, ?_⟩
  rw [List.drop_append_of_le_length hlen] at hafter
  cases hd : u.drop kw.length with
  | nil => rfl
  | cons a as =>
    rw [hd, List.cons_append] at hafter
    exact hafter

/-! ### Appending `" LIMIT 50"` preserves the validation checks -/

theorem lim50_cons : lim50 = ' ' :: ("LIMIT 50".data) := by decide

theorem no_keyword_in_lim50 (kw : List Char) (hmem : kw ∈ dangerousKeywords) :
    ∀ p, scanFrom (wordMatchAt kw) p lim50 = false := by
  have h0 : matchesAtCI kw lim50 = false ∧
      scanFrom (wordMatchAt kw) (some ' ') ("LIMIT 50".data) = false := by
    simp only [dangerousKeywords, List.mem_cons, List.not_mem_nil, or_false] at hmem
    rcases hmem with rfl | rfl | rfl | rfl | rfl | rfl | rfl | rfl <;> exact ⟨by decide, by decide⟩
  intro p
  rw [lim50_cons, scanFrom_cons]
  have h1 : wordMatchAt kw p (' ' :: "LIMIT 50".data) = false := by
    unfold wordMatchAt
    rw [← lim50_cons, h0.1]
    simp
  rw [h1, h0.2]
  rfl

theorem hasDangerous_append_lim50 (s : List Char)
    (h : hasDangerous (s ++ lim50) = true) : hasDangerous s = true := by
  unfold hasDangerous at h ⊢
  rw [List.any_eq_true] at h ⊢
  obtain ⟨kw, hmem, hsearch⟩ := h
  refine ⟨kw, hmem, ?_⟩
  have hkw : kw.all isWordChar = true := by
    simp only [dangerousKeywords, List.mem_cons, List.not_mem_nil, or_false] at hmem
    rcases hmem with rfl | rfl | rfl | rfl | rfl | rfl | rfl | rfl <;> decide
  unfold searchWordCI at hsearch ⊢
  rw [lim50_cons] at hsearch
  rcases scanFrom_append_split (wordMatchAt kw) (' ' :: "LIMIT 50".data)
      (wordMatchAt_unappend kw hkw ' ' ("LIMIT 50".data) (by decide)) s none hsearch with
    h1 | ⟨p, hp⟩
  · exact h1
  · rw [← lim50_cons] at hp
    rw [no_keyword_in_lim50 kw hmem p] at hp
    exact absurd hp (by simp)

theorem hasLimit_append_lim50 (s : List Char) : hasLimit (s ++ lim50) = true := by
  unfold hasLimit
  apply scanFrom_append_all
  intro p
  rw [lim50_cons, scanFrom_cons]
  have h : scanFrom limitMatchAt (some ' ') ("LIMIT 50".data) = true := by decide
  rw [h, Bool.or_true]

theorem dropWhile_append_cons (p : Char → Bool) :
    ∀ (s : List Char) (c : Char) (cs w : List Char), s.dropWhile p = c :: cs →
      (s ++ w).dropWhile p = (c :: cs) ++ w := by
  intro s
  induction s with
  | nil => intro c cs w h; simp at h
  | cons a as ih =>
    intro c cs w h
    by_cases hp : p a
    · rw [List.dropWhile_cons_of_pos hp] at h
      rw [List.cons_append, List.dropWhile_cons_of_pos hp]
      exact ih c cs w h
    · rw [List.dropWhile_cons_of_neg hp] at h
      rw [List.cons_append, List.dropWhile_cons_of_neg hp]
      injection h with h1 h2
      subst h1
      subst h2
      rw [List.cons_append]

theorem matchesSelect_append_lim50 (s : List Char) (h : matchesSelect s = true) :
    matchesSelect (s ++ lim50) = true := by
  unfold matchesSelect at h ⊢
  simp only [Bool.and_eq_true] at h ⊢
  obtain ⟨hm, hb⟩ := h
  cases hu : s.dropWhile isPySpace with
  | nil =>
    rw [hu] at hm
    exact absurd hm (by decide)
  | cons c cs =>
    rw [hu] at hm hb
    rw [dropWhile_append_cons isPySpace s c cs lim50 hu]
    constructor
    · exact matchesAtCI_extend selectKw (c :: cs) lim50 hm
    · have hlen := matchesAtCI_le_length selectKw (c :: cs) hm
      rw [List.drop_append_of_le_length hlen]
      cases hd : (c :: cs).drop selectKw.length with
      | nil => rw [List.nil_append]; decide
      | cons a as =>
        rw [hd] at hb
        rw [List.cons_append]
        exact hb

theorem matchesSelect_nil : matchesSelect [] = false := by decide

/-! ### Helper lemmas about `SafeSQLTool.run` -/

theorem containsSemi_append (s w : List Char) :
    containsSemi (s ++ w) = (containsSemi s || containsSemi w) := by
  unfold containsSemi
  exact List.any_append

theorem run_accepted {κ α : Type} (db : List Char → ExecResult κ α)
    (sql : List Char) (h : passesChecks sql = true) :
    SafeSQLTool.run db sql =
      match db (transform sql) with
      | ExecResult.raise msg => (Output.text (errTag ++ msg), some (transform sql))
      | ExecResult.result cols rows =>
        if rows.isEmpty then (Output.text noResultsMsg, some (transform sql))
        else (Output.successData cols rows rows.length, some (transform sql)) := by
  unfold passesChecks at h
  simp only [Bool.and_eq_true, Bool.not_eq_true'] at h
  obtain ⟨⟨h1, h2⟩, h3⟩ := h
  unfold SafeSQLTool.run
  rw [if_neg (by simp [h1]), if_neg (by simp [h2]), if_neg (by simp [h3])]

theorem run_sent {κ α : Type} (db : List Char → ExecResult κ α) (sql sent : List Char)
    (h : (SafeSQLTool.run db sql).2 = some sent) :
    passesChecks sql = true ∧ sent = transform sql := by
  unfold SafeSQLTool.run at h
  by_cases h1 : hasDangerous (pyStrip sql) = true
  · rw [if_pos h1] at h
    exact absurd h (by simp)
  · rw [if_neg h1] at h
    by_cases h2 : (containsSemi (pyStrip sql) && !endsWithSemi (pyStrip (pyStrip sql))) = true
    · rw [if_pos h2] at h
      exact absurd h (by simp)
    · rw [if_neg h2] at h
      by_cases h3 : (!matchesSelect (pyStrip sql)) = true
      · rw [if_pos h3] at h
        exact absurd h (by simp)
      · rw [if_neg h3] at h
        have hsent : sent = transform sql := by
          cases hdb : db (transform sql) with
          | raise msg =>
            rw [hdb] at h
            simp at h
            exact h.symm
          | result cols rows =>
            rw [hdb] at h
            by_cases hr : rows.isEmpty = true
            · simp [hr] at h
              exact h.symm
            · simp [hr] at h
              exact h.symm
        refine ⟨?_, hsent⟩
        have e1 : hasDangerous (pyStrip sql) = false := by simpa using h1
        have e2 : (containsSemi (pyStrip sql) && !endsWithSemi (pyStrip (pyStrip sql))) = false := by
          simpa using h2
        have e3 : matchesSelect (pyStrip sql) = true := by simpa using h3
        unfold passesChecks
        rw [e1, e2, e3]
        rfl

/-! ### Claim theorems -/

/-- C2: for every database behaviour and input, if the stripped input
contains one of INSERT, UPDATE, DELETE, DROP, TRUNCATE, ALTER, CREATE,
REPLACE case-insensitively as a whole word, `_run` returns the
write-operations error string and submits nothing to the database; and if
it contains none of them, that rejection (the write-operations error with
nothing executed) is not taken. -/
theorem C2_write_keywords {κ α : Type} (db : List Char → ExecResult κ α)
    (sql : List Char) :
    (hasDangerous (pyStrip sql) = true →
      SafeSQLTool.run db sql = (Output.text writeErrorMsg, none)) ∧
    (hasDangerous (pyStrip sql) = false →
      SafeSQLTool.run db sql ≠ (Output.text writeErrorMsg, none)) := by
  constructor
  · intro h
    unfold SafeSQLTool.run
    rw [if_pos h]
  · intro h
    unfold SafeSQLTool.run
    rw [if_neg (by simp [h])]
    split
    · intro hc
      rw [Prod.mk.injEq] at hc
      injection hc.1 with he
      exact absurd he (by decide)
    · split
      · intro hc
        rw [Prod.mk.injEq] at hc
        injection hc.1 with he
        exact absurd he (by decide)
      · split
        · intro hc
          rw [Prod.mk.injEq] at hc
          exact absurd hc.2 (by simp)
        · split
          · intro hc
            rw [Prod.mk.injEq] at hc
            exact absurd hc.2 (by simp)
          · intro hc
            rw [Prod.mk.injEq] at hc
            exact absurd hc.2 (by simp)

/-- Witness for C2 at concrete inputs: a query containing DROP is rejected
with the write-operations error, and a clean SELECT is not. -/
theorem C2_witness :
    (hasDangerous (pyStrip ("DROP TABLE t".data)) = true ∧
      SafeSQLTool.run (fun _ => (ExecResult.raise [] : ExecResult Unit Unit))
        ("DROP TABLE t".data) = (Output.text writeErrorMsg, none)) ∧
    (hasDangerous (pyStrip ("SELECT 1".data)) = false ∧
      SafeSQLTool.run (fun _ => (ExecResult.raise [] : ExecResult Unit Unit))
        ("SELECT 1".data) ≠ (Output.text writeErrorMsg, none)) :=
  ⟨⟨by decide, (C2_write_keywords _ _).1 (by decide)⟩,
   ⟨by decide, (C2_write_keywords _ _).2 (by decide)⟩⟩

/-- C1 as stated is false on two counts.  First, an input containing a
non-final semicolon together with a write keyword is rejected by the
earlier keyword check, so the returned error is the write-operations
string, not the multiple-statements string.  Second, the code only
inspects the final character of the trimmed input, so
`"SELECT 1; SELECT 2;"` — whose trimmed form contains a semicolon that is
not its final character — passes all three checks and is submitted to the
engine as `"SELECT 1; SELECT 2; LIMIT 50"`: a semicolon-chained input is
executed against the database. -/
theorem C1_counterexample :
    (containsSemi ((pyStrip ("DELETE FROM t; SELECT 1".data)).dropLast) = true ∧
      (SafeSQLTool.run (fun _ => (ExecResult.raise [] : ExecResult Unit Unit))
          ("DELETE FROM t; SELECT 1".data)).1 = Output.text writeErrorMsg ∧
      writeErrorMsg ≠ multiErrorMsg) ∧
    (containsSemi ((pyStrip ("SELECT 1; SELECT 2;".data)).dropLast) = true ∧
      (SafeSQLTool.run (fun _ => (ExecResult.raise [] : ExecResult Unit Unit))
          ("SELECT 1; SELECT 2;".data)).2 =
        some ("SELECT 1; SELECT 2; LIMIT 50".data)) := by
  exact ⟨by decide, by decide⟩

/-- C1 (amended): for every input whose whitespace-trimmed form contains a
semicolon, the semicolon check is decided by the final character alone.
When the trimmed input does not end with a semicolon, `_run` rejects it
and executes nothing: with the multiple-statements error string whenever
no write keyword occurs, and with the write-operations error string
otherwise.  When the trimmed input does end with a semicolon, the
semicolon rejection is never taken, and such an input that passes the
keyword and SELECT checks — interior semicolons included — is executed
against the database, so the check does not block all statement
chaining. -/
theorem C1_reject_chained {κ α : Type} (db : List Char → ExecResult κ α)
    (sql : List Char) (h1 : containsSemi (pyStrip sql) = true) :
    (endsWithSemi (pyStrip sql) = false →
      (SafeSQLTool.run db sql).2 = none ∧
      ((SafeSQLTool.run db sql).1 = Output.text writeErrorMsg ∨
        (SafeSQLTool.run db sql).1 = Output.text multiErrorMsg) ∧
      (hasDangerous (pyStrip sql) = false →
        SafeSQLTool.run db sql = (Output.text multiErrorMsg, none))) ∧
    (endsWithSemi (pyStrip sql) = true →
      SafeSQLTool.run db sql ≠ (Output.text multiErrorMsg, none) ∧
      (hasDangerous (pyStrip sql) = false → matchesSelect (pyStrip sql) = true →
        (SafeSQLTool.run db sql).2 = some (transform sql))) := by
  constructor
  · intro h2
    have hcond :
        (containsSemi (pyStrip sql) && !endsWithSemi (pyStrip (pyStrip sql))) = true := by
      rw [pyStrip_idem, h1, h2]
      rfl
    by_cases hd : hasDangerous (pyStrip sql) = true
    · have hrun : SafeSQLTool.run db sql = (Output.text writeErrorMsg, none) := by
        unfold SafeSQLTool.run
        rw [if_pos hd]
      rw [hrun]
      exact ⟨rfl, Or.inl rfl, fun hf => absurd hd (by simp [hf])⟩
    · have hrun : SafeSQLTool.run db sql = (Output.text multiErrorMsg, none) := by
        unfold SafeSQLTool.run
        rw [if_neg hd, if_pos hcond]
      rw [hrun]
      exact ⟨rfl, Or.inr rfl, fun _ => rfl⟩
  · intro h2
    have hcond :
        (containsSemi (pyStrip sql) && !endsWithSemi (pyStrip (pyStrip sql))) = false := by
      rw [pyStrip_idem, h1, h2]
      rfl
    constructor
    · unfold SafeSQLTool.run
      split
      · intro hc
        rw [Prod.mk.injEq] at hc
        injection hc.1 with he
        exact absurd he (by decide)
      · rw [if_neg (by simp [hcond])]
        split
        · intro hc
          rw [Prod.mk.injEq] at hc
          injection hc.1 with he
          exact absurd he (by decide)
        · split
          · intro hc
            rw [Prod.mk.injEq] at hc
            exact absurd hc.2 (by simp)
          · split
            · intro hc
              rw [Prod.mk.injEq] at hc
              exact absurd hc.2 (by simp)
            · intro hc
              rw [Prod.mk.injEq] at hc
              exact absurd hc.2 (by simp)
    · intro hd hm
      have hpass : passesChecks sql = true := by
        unfold passesChecks
        rw [hd, hcond, hm]
        rfl
      rw [run_accepted db sql hpass]
      cases hdb : db (transform sql) with
      | raise msg => rfl
      | result cols rows =>
        by_cases hr : rows.isEmpty = true
        · simp [hr]
        · simp [hr]

/-- Witness for C1 (amended) at two concrete chained inputs: one without a
trailing semicolon, rejected with the multiple-statements error and
nothing executed, and one with a trailing semicolon, which is accepted and
submitted to the engine. -/
theorem C1_witness :
    ((containsSemi (pyStrip ("SELECT 1; SELECT 2".data)) = true ∧
      endsWithSemi (pyStrip ("SELECT 1; SELECT 2".data)) = false ∧
      hasDangerous (pyStrip ("SELECT 1; SELECT 2".data)) = false) ∧
      SafeSQLTool.run (fun _ => (ExecResult.raise [] : ExecResult Unit Unit))
        ("SELECT 1; SELECT 2".data) = (Output.text multiErrorMsg, none)) ∧
    ((containsSemi (pyStrip ("SELECT 1; SELECT 2;".data)) = true ∧
      endsWithSemi (pyStrip ("SELECT 1; SELECT 2;".data)) = true ∧
      hasDangerous (pyStrip ("SELECT 1; SELECT 2;".data)) = false ∧
      matchesSelect (pyStrip ("SELECT 1; SELECT 2;".data)) = true) ∧
      (SafeSQLTool.run (fun _ => (ExecResult.raise [] : ExecResult Unit Unit))
          ("SELECT 1; SELECT 2;".data)).2 =
        some (transform ("SELECT 1; SELECT 2;".data))) :=
  ⟨⟨by decide,
    ((C1_reject_chained _ ("SELECT 1; SELECT 2".data) (by decide)).1
      (by decide)).2.2 (by decide)⟩,
   ⟨by decide,
    ((C1_reject_chained _ ("SELECT 1; SELECT 2;".data) (by decide)).2
      (by decide)).2 (by decide) (by decide)⟩⟩

/-- C3: for every database behaviour, an input whose stripped form does not
start (after optional leading whitespace, case-insensitively) with the
keyword SELECT is rejected before execution: nothing is submitted to the
database and the returned value is one of the literal error strings, each
of which is tagged with the `"ERROR:"` prefix. -/
theorem C3_reject_non_select {κ α : Type} (db : List Char → ExecResult κ α)
    (sql : List Char) (h : matchesSelect (pyStrip sql) = false) :
    (SafeSQLTool.run db sql).2 = none ∧
    ∃ e, (SafeSQLTool.run db sql).1 = Output.text e ∧
      ∃ rest, e = "ERROR:".data ++ rest := by
  unfold SafeSQLTool.run
  by_cases hd : hasDangerous (pyStrip sql) = true
  · rw [if_pos hd]
    exact ⟨rfl, writeErrorMsg, rfl,
      ⟨" Write operations are not allowed for security reasons.".data, by decide⟩⟩
  · rw [if_neg hd]
    by_cases hsemi : (containsSemi (pyStrip sql) && !endsWithSemi (pyStrip (pyStrip sql))) = true
    · rw [if_pos hsemi]
      exact ⟨rfl, multiErrorMsg, rfl,
        ⟨" Multiple statements are not allowed.".data, by decide⟩⟩
    · rw [if_neg hsemi, if_pos (by rw [h]; rfl)]
      exact ⟨rfl, selectErrorMsg, rfl,
        ⟨" Only SELECT statements are allowed.".data, by decide⟩⟩

/-- Witness for C3 at a concrete non-SELECT input. -/
theorem C3_witness :
    matchesSelect (pyStrip ("EXPLAIN QUERY PLAN x".data)) = false ∧
    ((SafeSQLTool.run (fun _ => (ExecResult.raise [] : ExecResult Unit Unit))
        ("EXPLAIN QUERY PLAN x".data)).2 = none ∧
      ∃ e, (SafeSQLTool.run (fun _ => (ExecResult.raise [] : ExecResult Unit Unit))
          ("EXPLAIN QUERY PLAN x".data)).1 = Output.text e ∧
        ∃ rest, e = "ERROR:".data ++ rest) :=
  ⟨by decide, C3_reject_non_select _ ("EXPLAIN QUERY PLAN x".data) (by decide)⟩

/-- C4 as stated is false: `_run` strips the input before executing it, so
an accepted input carrying surrounding whitespace is neither executed
unchanged (when a LIMIT clause is present) nor executed as the input with
`" LIMIT 50"` appended (when none is present). -/
theorem C4_counterexample :
    (passesChecks ("SELECT 1 LIMIT 1 ".data) = true ∧
      hasLimit (pyStrip ("SELECT 1 LIMIT 1 ".data)) = true ∧
      (SafeSQLTool.run (fun _ => (ExecResult.raise [] : ExecResult Unit Unit))
          ("SELECT 1 LIMIT 1 ".data)).2 = some ("SELECT 1 LIMIT 1".data) ∧
      "SELECT 1 LIMIT 1".data ≠ "SELECT 1 LIMIT 1 ".data) ∧
    (passesChecks ("SELECT 1 ".data) = true ∧
      hasLimit (pyStrip ("SELECT 1 ".data)) = false ∧
      (SafeSQLTool.run (fun _ => (ExecResult.raise [] : ExecResult Unit Unit))
          ("SELECT 1 ".data)).2 = some ("SELECT 1 LIMIT 50".data) ∧
      "SELECT 1 LIMIT 50".data ≠ "SELECT 1 ".data ++ lim50) := by
  exact ⟨by decide, by decide⟩

/-- C4 (amended): for every input that passes the three validation checks,
the SQL submitted to the database is the whitespace-trimmed input, with
`" LIMIT 50"` appended exactly when the trimmed input has no LIMIT clause,
and unchanged (beyond the trimming) when a LIMIT clause is present. -/
theorem C4_append_limit {κ α : Type} (db : List Char → ExecResult κ α)
    (sql : List Char) (h : passesChecks sql = true) :
    (SafeSQLTool.run db sql).2 = some (transform sql) ∧
    (hasLimit (pyStrip sql) = false → transform sql = pyStrip sql ++ lim50) ∧
    (hasLimit (pyStrip sql) = true → transform sql = pyStrip sql) := by
  refine ⟨?_, ?_, ?_⟩
  · rw [run_accepted db sql h]
    cases hdb : db (transform sql) with
    | raise msg => rfl
    | result cols rows =>
      by_cases hr : rows.isEmpty = true
      · simp [hr]
      · simp [hr]
  · intro hl
    unfold transform
    rw [hl]
    rfl
  · intro hl
    unfold transform
    rw [hl]
    rfl

/-- Witness for C4 (amended): both the LIMIT-present and LIMIT-absent cases
at concrete accepted inputs. -/
theorem C4_witness :
    (passesChecks ("SELECT a FROM t".data) = true ∧
      hasLimit (pyStrip ("SELECT a FROM t".data)) = false) ∧
    ((SafeSQLTool.run (fun _ => (ExecResult.raise [] : ExecResult Unit Unit))
        ("SELECT a FROM t".data)).2 = some (transform ("SELECT a FROM t".data)) ∧
      (hasLimit (pyStrip ("SELECT a FROM t".data)) = false →
        transform ("SELECT a FROM t".data) = pyStrip ("SELECT a FROM t".data) ++ lim50) ∧
      (hasLimit (pyStrip ("SELECT a FROM t".data)) = true →
        transform ("SELECT a FROM t".data) = pyStrip ("SELECT a FROM t".data))) :=
  ⟨by decide, C4_append_limit _ ("SELECT a FROM t".data) (by decide)⟩

/-- C5: `_run` is a total function of the database outcome — when executing
the validated, LIMIT-augmented SQL raises an exception with message `msg`,
`_run` returns the string `"ERROR: " ++ msg` instead of propagating the
exception. -/
theorem C5_exec_error {κ α : Type} (db : List Char → ExecResult κ α)
    (sql msg : List Char) (hacc : passesChecks sql = true)
    (hdb : db (transform sql) = ExecResult.raise msg) :
    SafeSQLTool.run db sql = (Output.text (errTag ++ msg), some (transform sql)) := by
  rw [run_accepted db sql hacc, hdb]

/-- Witness for C5 at a concrete input with a failing engine. -/
theorem C5_witness :
    (passesChecks ("SELECT 1".data) = true ∧
      (fun (_ : List Char) => (ExecResult.raise ("no such table".data) : ExecResult Unit Unit))
        (transform ("SELECT 1".data)) = ExecResult.raise ("no such table".data)) ∧
    SafeSQLTool.run
        (fun _ => (ExecResult.raise ("no such table".data) : ExecResult Unit Unit))
        ("SELECT 1".data) =
      (Output.text (errTag ++ "no such table".data), some (transform ("SELECT 1".data))) :=
  ⟨⟨by decide, rfl⟩,
   C5_exec_error _ ("SELECT 1".data) ("no such table".data) (by decide) rfl⟩

/-- C6: for every accepted input whose execution succeeds, `_run` returns
the literal no-results string when the query yields zero rows, and
otherwise the SUCCESS payload carrying the column names, the row tuples,
and a row count equal to the number of returned rows. -/
theorem C6_success {κ α : Type} (db : List Char → ExecResult κ α)
    (sql : List Char) (cols : List κ) (rows : List α)
    (hacc : passesChecks sql = true)
    (hdb : db (transform sql) = ExecResult.result cols rows) :
    (rows = [] →
      SafeSQLTool.run db sql = (Output.text noResultsMsg, some (transform sql))) ∧
    (rows ≠ [] →
      SafeSQLTool.run db sql =
        (Output.successData cols rows rows.length, some (transform sql))) := by
  rw [run_accepted db sql hacc, hdb]
  constructor
  · intro h
    rw [h]
    rfl
  · intro h
    have hr : rows.isEmpty = false := by simpa [List.isEmpty_iff] using h
    simp [hr]

/-- Witness for C6: a zero-row result and a two-row result at concrete
inputs. -/
theorem C6_witness :
    (passesChecks ("SELECT 1".data) = true ∧
      SafeSQLTool.run
          (fun _ => (ExecResult.result ["id".data] [] : ExecResult (List Char) Nat))
          ("SELECT 1".data) =
        (Output.text noResultsMsg, some (transform ("SELECT 1".data)))) ∧
    SafeSQLTool.run
        (fun _ => (ExecResult.result ["id".data] [3, 7] : ExecResult (List Char) Nat))
        ("SELECT 1".data) =
      (Output.successData ["id".data] [3, 7] 2, some (transform ("SELECT 1".data))) :=
  ⟨⟨by decide,
    (C6_success _ ("SELECT 1".data) ["id".data] [] (by decide) rfl).1 rfl⟩,
   (C6_success _ ("SELECT 1".data) ["id".data] [3, 7] (by decide) rfl).2 (by decide)⟩

/-- C8: every SQL text that `_run` submits to the database engine starts
(after optional leading whitespace, case-insensitively) with the keyword
SELECT, contains none of the write keywords as a case-insensitive whole
word, and contains a LIMIT clause followed by a number. -/
theorem C8_executed_invariant {κ α : Type} (db : List Char → ExecResult κ α)
    (sql sent : List Char) (h : (SafeSQLTool.run db sql).2 = some sent) :
    matchesSelect sent = true ∧ hasDangerous sent = false ∧ hasLimit sent = true := by
  obtain ⟨hacc, hsent⟩ := run_sent db sql sent h
  unfold passesChecks at hacc
  simp only [Bool.and_eq_true, Bool.not_eq_true'] at hacc
  obtain ⟨⟨e1, _⟩, e3⟩ := hacc
  subst hsent
  by_cases hl : hasLimit (pyStrip sql) = true
  · have ht : transform sql = pyStrip sql := by
      unfold transform
      rw [hl]
      rfl
    rw [ht]
    exact ⟨e3, e1, hl⟩
  · have hl2 : hasLimit (pyStrip sql) = false := by simpa using hl
    have ht : transform sql = pyStrip sql ++ lim50 := by
      unfold transform
      rw [hl2]
      rfl
    rw [ht]
    refine ⟨matchesSelect_append_lim50 _ e3, ?_, hasLimit_append_lim50 _⟩
    cases hda : hasDangerous (pyStrip sql ++ lim50) with
    | false => rfl
    | true =>
      exact absurd (hasDangerous_append_lim50 _ hda) (by rw [e1]; simp)

/-- Witness for C8 at a concrete input (no LIMIT clause in the input, so
the executed text is the input with `" LIMIT 50"` appended). -/
theorem C8_witness :
    (SafeSQLTool.run (fun _ => (ExecResult.raise [] : ExecResult Unit Unit))
        ("SELECT name FROM customers".data)).2 =
      some ("SELECT name FROM customers LIMIT 50".data) ∧
    (matchesSelect ("SELECT name FROM customers LIMIT 50".data) = true ∧
      hasDangerous ("SELECT name FROM customers LIMIT 50".data) = false ∧
      hasLimit ("SELECT name FROM customers LIMIT 50".data) = true) :=
  ⟨by decide,
   C8_executed_invariant (fun _ => (ExecResult.raise [] : ExecResult Unit Unit))
     ("SELECT name FROM customers".data)
     ("SELECT name FROM customers LIMIT 50".data) (by decide)⟩

/-- C10 as stated is false: the input `"SELECT 1;"` passes all three
validation checks (its semicolon is final), but the transform appends
`" LIMIT 50"` after the semicolon, and the resulting text
`"SELECT 1; LIMIT 50"` fails the multiple-statements check, so the
transformed SQL does not pass the validation again. -/
theorem C10_counterexample :
    passesChecks ("SELECT 1;".data) = true ∧
    transform ("SELECT 1;".data) = "SELECT 1; LIMIT 50".data ∧
    passesChecks (transform ("SELECT 1;".data)) = false := by
  exact ⟨by decide, by decide, by decide⟩

/-- C10 (amended): for every accepted input whose trimmed form contains no
semicolon or already contains a LIMIT clause, the transformed SQL passes
all three validation checks again and a second application of the
transform leaves it unchanged.  (The excluded inputs — accepted inputs
ending in a semicolon and lacking a LIMIT clause — are transformed into
text that fails the multiple-statements check.) -/
theorem C10_transform_idem (sql : List Char) (hacc : passesChecks sql = true)
    (hside : containsSemi (pyStrip sql) = false ∨ hasLimit (pyStrip sql) = true) :
    passesChecks (transform sql) = true ∧
    transform (transform sql) = transform sql := by
  unfold passesChecks at hacc
  simp only [Bool.and_eq_true, Bool.not_eq_true'] at hacc
  obtain ⟨⟨e1, e2⟩, e3⟩ := hacc
  simp only [pyStrip_idem] at e2
  cases ht : pyStrip sql with
  | nil =>
    rw [ht] at e3
    exact absurd e3 (by decide)
  | cons c cs =>
  by_cases hl : hasLimit (pyStrip sql) = true
  · have htr : transform sql = pyStrip sql := by
      unfold transform
      rw [hl]
      rfl
    rw [htr]
    constructor
    · unfold passesChecks
      simp only [pyStrip_idem]
      rw [e1, e2, e3]
      rfl
    · unfold transform
      rw [pyStrip_idem, hl]
      rfl
  · have hl2 : hasLimit (pyStrip sql) = false := by simpa using hl
    have hsemi : containsSemi (pyStrip sql) = false := by
      rcases hside with hs | hs
      · exact hs
      · rw [hs] at hl2
        exact absurd hl2 (by decide)
    have htr : transform sql = pyStrip sql ++ lim50 := by
      unfold transform
      rw [hl2]
      rfl
    rw [htr]
    have hstrip : pyStrip (pyStrip sql ++ lim50) = pyStrip sql ++ lim50 := by
      rw [ht]
      rw [← ht]
      exact pyStrip_append_lim50 sql c cs ht
    have hd : hasDangerous (pyStrip sql ++ lim50) = false := by
      cases hda : hasDangerous (pyStrip sql ++ lim50) with
      | false => rfl
      | true =>
        exact absurd (hasDangerous_append_lim50 _ hda) (by rw [e1]; simp)
    have hcs : containsSemi (pyStrip sql ++ lim50) = false := by
      rw [containsSemi_append, hsemi]
      decide
    constructor
    · unfold passesChecks
      simp only [hstrip]
      rw [hd, hcs, matchesSelect_append_lim50 _ e3]
      rfl
    · unfold transform
      rw [hstrip, hasLimit_append_lim50]
      rfl

/-- Witness for C10 (amended) at a concrete semicolon-free accepted input. -/
theorem C10_witness :
    (passesChecks ("SELECT 1".data) = true ∧
      containsSemi (pyStrip ("SELECT 1".data)) = false) ∧
    (passesChecks (transform ("SELECT 1".data)) = true ∧
      transform (transform ("SELECT 1".data)) = transform ("SELECT 1".data)) :=
  ⟨by decide, C10_transform_idem ("SELECT 1".data) (by decide) (Or.inl (by decide))⟩

/-- C9: for every agent behaviour, a request whose `"query"` field is
missing, empty, or whitespace-only is answered with the 400 response
`"No query provided"`, and the agent is never invoked. -/
theorem C9_empty_query (agent : AgentOutcome) (body : Option (List Char))
    (h : pyStrip (body.getD []) = []) :
    query_agent agent body = (Response.badRequest ("No query provided".data), false) := by
  unfold query_agent
  rw [h]
  rfl

/-- Witness for C9 with an absent `"query"` field and an arbitrary agent. -/
theorem C9_witness :
    pyStrip ((none : Option (List Char)).getD []) = [] ∧
    query_agent AgentOutcome.initFailed none =
      (Response.badRequest ("No query provided".data), false) :=
  ⟨by decide, C9_empty_query AgentOutcome.initFailed none (by decide)⟩

/-- C7: for every POST with a non-empty query, when the agent invocation
raises an exception whose message contains `"429"` or, case-insensitively,
`"quota"`, the handler answers through the hardcoded fallback of
`handle_quota_exceeded`; when the message contains neither, it answers with
an HTTP 500 server error; the fallback path is reachable only through that
quota branch; and the fallback routes by keyword — customers, products,
orders, then revenue (on "revenue" or "total"), with a quota-exceeded
message otherwise. -/
theorem C7_quota_fallback (body : Option (List Char)) (msg : List Char)
    (h : pyStrip (body.getD []) ≠ []) :
    ((containsSub ("429".data) msg || containsSub ("quota".data) (toLowerL msg)) = true →
      query_agent (AgentOutcome.raised msg) body =
        (Response.fallback (handle_quota_exceeded (pyStrip (body.getD []))), true)) ∧
    ((containsSub ("429".data) msg || containsSub ("quota".data) (toLowerL msg)) = false →
      query_agent (AgentOutcome.raised msg) body =
        (Response.serverError ("Server error: ".data ++ msg), true)) ∧
    (∀ (a : AgentOutcome) (b : Option (List Char)) (r : FallbackRoute),
      (query_agent a b).1 = Response.fallback r →
      ∃ m, a = AgentOutcome.raised m ∧
        (containsSub ("429".data) m || containsSub ("quota".data) (toLowerL m)) = true) ∧
    (∀ q : List Char,
      (containsSub ("customers".data) (toLowerL q) = true →
        handle_quota_exceeded q = FallbackRoute.customers) ∧
      (containsSub ("customers".data) (toLowerL q) = false →
        containsSub ("products".data) (toLowerL q) = true →
        handle_quota_exceeded q = FallbackRoute.products) ∧
      (containsSub ("customers".data) (toLowerL q) = false →
        containsSub ("products".data) (toLowerL q) = false →
        containsSub ("orders".data) (toLowerL q) = true →
        handle_quota_exceeded q = FallbackRoute.orders) ∧
      (containsSub ("customers".data) (toLowerL q) = false →
        containsSub ("products".data) (toLowerL q) = false →
        containsSub ("orders".data) (toLowerL q) = false →
        (containsSub ("revenue".data) (toLowerL q) ||
          containsSub ("total".data) (toLowerL q)) = true →
        handle_quota_exceeded q = FallbackRoute.revenue) ∧
      (containsSub ("customers".data) (toLowerL q) = false →
        containsSub ("products".data) (toLowerL q) = false →
        containsSub ("orders".data) (toLowerL q) = false →
        (containsSub ("revenue".data) (toLowerL q) ||
          containsSub ("total".data) (toLowerL q)) = false →
        handle_quota_exceeded q = FallbackRoute.quotaMessage)) := by
  cases hq : pyStrip (body.getD []) with
  | nil => exact absurd hq h
  | cons c cs =>
    refine ⟨?_, ?_, ?_, ?_⟩
    · intro hc
      simp [query_agent, hq, hc]
    · intro hc
      simp [query_agent, hq, hc]
    · intro a b r hab
      unfold query_agent at hab
      by_cases hb : (pyStrip (b.getD [])).isEmpty = true
      · rw [if_pos hb] at hab
        simp at hab
      · rw [if_neg hb] at hab
        cases a with
        | initFailed => simp at hab
        | output res => simp at hab
        | raised m =>
          by_cases hcq :
              (containsSub ("429".data) m || containsSub ("quota".data) (toLowerL m)) = true
          · exact ⟨m, rfl, hcq⟩
          · have hcq2 :
                (containsSub ("429".data) m || containsSub ("quota".data) (toLowerL m)) = false := by
              simpa using hcq
            simp [hcq2] at hab
    · intro q
      refine ⟨?_, ?_, ?_, ?_, ?_⟩
      · intro h1
        unfold handle_quota_exceeded
        rw [h1]
        rfl
      · intro h1 h2
        unfold handle_quota_exceeded
        rw [h1, h2]
        rfl
      · intro h1 h2 h3
        unfold handle_quota_exceeded
        rw [h1, h2, h3]
        rfl
      · intro h1 h2 h3 h4
        unfold handle_quota_exceeded
        rw [h1, h2, h3, h4]
        rfl
      · intro h1 h2 h3 h4
        unfold handle_quota_exceeded
        rw [h1, h2, h3, h4]
        rfl

/-- Witness for C7 at a concrete quota-exhausted request asking about
customers. -/
theorem C7_witness :
    pyStrip ((some ("show customers".data)).getD []) ≠ [] ∧
    query_agent (AgentOutcome.raised ("Error 429 rate limit".data))
        (some ("show customers".data)) =
      (Response.fallback
        (handle_quota_exceeded (pyStrip ((some ("show customers".data)).getD []))), true) :=
  ⟨by decide,
   (C7_quota_fallback (some ("show customers".data)) ("Error 429 rate limit".data)
     (by decide)).1 (by decide)⟩
